import Mathlib

/-!
# Verification of the public-opinion data pipeline

Shallow embedding of `src/pipeline.py`: a three-stage ETL pipeline
(extract → transform → load) over survey records.

Modelling decisions, all taken from the source:
* A dataframe is a `List RawRecord`, one record per CSV row.
* A cell of the outcome column (`policy_support`) is a `Cell`: a number
  (rationals stand in for the exact values the means are computed from),
  a non-numeric string, or NaN (a missing value).  Demographic cells are
  `Option String`: `none` is NaN/missing, `some v` a categorical value.
* `pandas.Series.mean` skips NaN values and returns NaN when no numeric
  value remains (modelled as `none`); it raises `TypeError` when a string
  is present in the column (summing a number and a string fails).
* `df.groupby(col)` uses pandas defaults: NaN keys are dropped
  (`dropna=True`) and group keys are sorted ascending (`sort=True`).
  `agg(["count", "mean"])` counts the non-NaN outcome cells of the group
  and takes the NaN-skipping mean of the group.
* `extract_data` raises `FileNotFoundError` when no CSV file is found,
  otherwise concatenates all files' rows in order.
* `load_data` writes one report file named
  `report_<YYYY-MM-DD_HH-MM-SS>.txt`, the timestamp coming from
  `datetime.now().strftime("%Y-%m-%d_%H-%M-%S")` (second resolution;
  sub-second digits are discarded).  The report body is rendering-only
  and not needed by any property below, so the artifact is identified by
  its path.
* The flow body is straight-line Python: an exception in a stage aborts
  the remaining stages and propagates.  The only file touch is in
  `load_data`, where `open(report_path, "w")` creates or truncates the
  report path before `f.write` runs — so a failure of the write itself
  happens after the path has already been created or truncated, while a
  failure of `open` itself leaves nothing behind.
-/

/-- One cell of the `policy_support` column: a numeric value, a
non-numeric string, or NaN (missing). -/
inductive Cell where
  | num (q : ℚ)
  | str (s : String)
  | na
deriving DecidableEq

/-- One survey response row: the outcome cell and the five demographic
columns (`none` models a NaN/missing demographic value). -/
structure RawRecord where
  policy_support : Cell
  gender : Option String
  race : Option String
  age_group : Option String
  education : Option String
  income : Option String
deriving DecidableEq

/-- Exceptions the pipeline can raise, named after the Python exception
that the source raises at the corresponding point. -/
inductive PipelineError where
  /-- Python `FileNotFoundError("No CSV files found in …")` from `extract_data`. -/
  | fileNotFound
  /-- Python `TypeError` raised by pandas when `mean` is asked to sum a string. -/
  | typeError
  /-- Python `OSError` from the report write in `load_data`. -/
  | writeError
deriving DecidableEq

/-- Is this cell a (non-numeric) string? -/
def Cell.isStr : Cell → Bool
  | .str _ => true
  | _ => false

/-- The numeric value of a cell, if any. -/
def Cell.toNum? : Cell → Option ℚ
  | .num q => some q
  | _ => none

/-- Model of `pandas.Series.mean` on the outcome column: `TypeError` if a string
is present, otherwise the mean of the numeric cells, NaN (`none`) when
there is no numeric cell (empty or all-NaN column). -/
def seriesMean (cells : List Cell) : Except PipelineError (Option ℚ) :=
  if cells.any Cell.isStr then .error .typeError
  else
    let nums := cells.filterMap Cell.toNum?
    if nums.isEmpty then .ok none
    else .ok (some (nums.sum / nums.length))

/-- One row of a demographic breakdown, as produced by
`grouped.reset_index().to_dict(orient="records")`: the category value,
the group's non-NaN outcome count, and the group's outcome mean
(`none` = NaN). -/
structure GroupStat where
  category : String
  respondent_count : ℕ
  support_rate : Option ℚ
deriving DecidableEq

/-- The group keys of `df.groupby(col)` with pandas defaults: the
distinct non-NaN values of the column, sorted ascending
(`dropna=True`, `sort=True`). -/
def groupKeys (attr : RawRecord → Option String) (df : List RawRecord) :
    List String :=
  List.insertionSort (· ≤ ·) (df.filterMap attr).dedup

/-- The rows of the group keyed `k`: exact equality on the column. -/
def groupRows (attr : RawRecord → Option String) (k : String)
    (df : List RawRecord) : List RawRecord :=
  df.filter (fun r => attr r = some k)

/-- The `policy_support` cells of the group keyed `k`. -/
def groupCells (attr : RawRecord → Option String) (k : String)
    (df : List RawRecord) : List Cell :=
  (groupRows attr k df).map RawRecord.policy_support

/-- Aggregation `count` of the group keyed `k`: pandas counts the
group's non-NaN outcome cells. -/
def groupCount (attr : RawRecord → Option String) (k : String)
    (df : List RawRecord) : ℕ :=
  (groupCells attr k df).countP (fun c => c ≠ Cell.na)

/-- Aggregation `mean` of the group keyed `k`: NaN-skipping mean of the
group's outcome cells, NaN (`none`) when no numeric cell remains. -/
def groupRate (attr : RawRecord → Option String) (k : String)
    (df : List RawRecord) : Option ℚ :=
  let nums := (groupCells attr k df).filterMap Cell.toNum?
  if nums.isEmpty then none else some (nums.sum / nums.length)

/-- Model of `df.groupby(col)["policy_support"].agg(["count", "mean"])`
followed by `reset_index().to_dict(orient="records")`: one record per
group key, in sorted key order. -/
def groupStats (attr : RawRecord → Option String) (df : List RawRecord) :
    List GroupStat :=
  (groupKeys attr df).map fun k =>
    { category := k
      respondent_count := groupCount attr k df
      support_rate := groupRate attr k df }

/-- The summary dictionary built by `transform_data`. -/
structure Summary where
  overall_support_rate : Option ℚ
  gender : List GroupStat
  race : List GroupStat
  age_group : List GroupStat
  education : List GroupStat
  income : List GroupStat
deriving DecidableEq

/-- Stage `transform_data`: the overall mean of `policy_support` (computed
first; a string cell raises `TypeError` here) and the five demographic
breakdowns. -/
def transform_data (df : List RawRecord) : Except PipelineError Summary :=
  match seriesMean (df.map RawRecord.policy_support) with
  | .error e => .error e
  | .ok overall =>
      .ok { overall_support_rate := overall
            gender := groupStats RawRecord.gender df
            race := groupStats RawRecord.race df
            age_group := groupStats RawRecord.age_group df
            education := groupStats RawRecord.education df
            income := groupStats RawRecord.income df }

/-- The environment a run sees: the parsed rows of each CSV file
discovered in `data/raw`, and the fate of the two filesystem operations
of `load_data` — whether `open(report_path, "w")` succeeds, and whether
the subsequent `f.write` succeeds. -/
structure Env where
  csvFiles : List (List RawRecord)
  openOk : Bool
  writeOk : Bool

/-- Stage `extract_data`: raise `FileNotFoundError` when no CSV file exists,
otherwise concatenate all files' rows (`pd.concat`, keeping every row). -/
def extract_data (env : Env) : Except PipelineError (List RawRecord) :=
  if env.csvFiles.isEmpty then .error .fileNotFound
  else .ok env.csvFiles.flatten

/-- A wall-clock instant as `datetime.now()` sees it; `micro` is the
sub-second part, which `strftime("%Y-%m-%d_%H-%M-%S")` discards. -/
structure Timestamp where
  year : ℕ
  month : ℕ
  day : ℕ
  hour : ℕ
  minute : ℕ
  second : ℕ
  micro : ℕ
deriving DecidableEq

/-- The decimal digit character for `d` (meaningful for `d < 10`). -/
def digitChar (d : ℕ) : Char := Char.ofNat (48 + d)

/-- Base-10 digits of `n`, little-endian, zero-padded to width `w`. -/
def padDigits (w n : ℕ) : List ℕ :=
  Nat.digits 10 n ++ List.replicate (w - (Nat.digits 10 n).length) 0

/-- Rendering of `n` in decimal, zero-padded to width `w` (as `strftime`'s
`%Y`/`%m`/`%d`/`%H`/`%M`/`%S` fields print their components). -/
def padNum (w n : ℕ) : List Char :=
  (padDigits w n).reverse.map digitChar

/-- Format `datetime.now().strftime("%Y-%m-%d_%H-%M-%S")` of the source. -/
def strftimeTs (t : Timestamp) : List Char :=
  padNum 4 t.year ++ ('-' :: (padNum 2 t.month ++ ('-' :: (padNum 2 t.day
    ++ ('_' :: (padNum 2 t.hour ++ ('-' :: (padNum 2 t.minute
    ++ ('-' :: padNum 2 t.second)))))))))

/-- The characters of the report file name `report_<ts>.txt`. -/
def reportFileNameData (t : Timestamp) : List Char :=
  "report_".data ++ strftimeTs t ++ ".txt".data

/-- The report file name chosen by `load_data`. -/
def reportFileName (t : Timestamp) : String :=
  ⟨reportFileNameData t⟩

/-- Stage `load_data`: render the summary, then
`open(report_path, "w")` — which creates or truncates the report path as
soon as it succeeds — then `f.write` the rendered text.  The first
component is the stage's outcome; the second lists the paths the stage
created or truncated.  When `open` itself fails nothing is touched, but
when `open` succeeds and the write then fails, the path has already been
created or truncated. -/
def load_data (env : Env) (_s : Summary) (now : Timestamp) :
    Except PipelineError String × List String :=
  if !env.openOk then (.error .writeError, [])
  else if !env.writeOk then (.error .writeError, [reportFileName now])
  else (.ok (reportFileName now), [reportFileName now])

/-- The flow body of `pipeline`: `extract_data`, then `transform_data`,
then `load_data`, each run only if the previous stage returned normally;
an exception propagates to the caller.  The second component collects
every file the run created or truncated (only `load_data` touches the
filesystem). -/
def pipeline (env : Env) (now : Timestamp) :
    Except PipelineError String × List String :=
  match extract_data env with
  | .error e => (.error e, [])
  | .ok df =>
    match transform_data df with
    | .error e => (.error e, [])
    | .ok summary => load_data env summary now

/-! ## Concrete datasets used by the example-based claims -/

/-- A respondent supporting the policy, gender `M`. -/
def recM : RawRecord :=
  { policy_support := .num 1, gender := some "M", race := some "W",
    age_group := some "18-29", education := some "BA", income := some "low" }

/-- A respondent opposing the policy, gender `F`. -/
def recF : RawRecord :=
  { policy_support := .num 0, gender := some "F", race := some "W",
    age_group := some "18-29", education := some "BA", income := some "low" }

/-- A respondent whose outcome value is the number `2`, outside `{0, 1}`. -/
def recTwo : RawRecord :=
  { policy_support := .num 2, gender := some "M", race := some "W",
    age_group := some "18-29", education := some "BA", income := some "low" }

/-- A respondent with a missing (NaN) `gender` value. -/
def recNoGender : RawRecord :=
  { policy_support := .num 1, gender := none, race := some "W",
    age_group := some "18-29", education := some "BA", income := some "low" }

/-! ## C3: behaviour of the transform stage on an empty dataset -/

/-- C3 (counterexample): on a dataset with zero records `transform_data`
does not fail — it returns a summary, so the claimed
`EmptyDatasetError` failure does not happen. -/
theorem transform_data_empty_returns_summary :
    ∃ s, transform_data [] = Except.ok s :=
  ⟨_, rfl⟩

/-- C3 (amended): on a dataset with zero records `transform_data`
succeeds, returning NaN (`none`) as the overall support rate and an
empty breakdown list for each of the five demographic attributes. -/
theorem transform_data_empty_eq :
    transform_data [] =
      Except.ok { overall_support_rate := none, gender := [], race := [],
                  age_group := [], education := [], income := [] } := rfl

/-! ## C5: the two-record end-to-end scenario -/

/-- C5: on the dataset `policy_support = [1, 0]`, `gender = [M, F]`, the
transform stage returns overall support rate `1/2`, and the gender
breakdown consists exactly of the triples `(F, 1, 0)` and `(M, 1, 1)`
(pandas sorts the keys, so `F` is listed first). -/
theorem transform_data_two_record_scenario :
    ∃ s, transform_data [recM, recF] = Except.ok s ∧
      s.overall_support_rate = some (1 / 2) ∧
      s.gender = [{ category := "F", respondent_count := 1, support_rate := some 0 },
                  { category := "M", respondent_count := 1, support_rate := some 1 }] := by
  refine ⟨_, rfl, ?_, ?_⟩ <;>
    simp +decide [transform_data, seriesMean, groupStats, groupKeys, groupRows,
      groupCells, groupCount, groupRate, recM, recF, Cell.toNum?,
      Cell.isStr, List.insertionSort, List.orderedInsert, List.dedup, List.countP_cons,
      List.countP_nil, List.filter_cons, Function.comp]

/-! ## C6: outcome values outside the binary domain -/

/-- C6 (counterexample): a record whose outcome is the number `2` — not
interpretable as a member of `{0, 1}` — does not make the transform
stage fail: the value is averaged in as-is and a summary is returned. -/
theorem transform_data_accepts_outcome_two :
    transform_data [recTwo] =
      Except.ok { overall_support_rate := some 2,
                  gender := [{ category := "M", respondent_count := 1, support_rate := some 2 }],
                  race := [{ category := "W", respondent_count := 1, support_rate := some 2 }],
                  age_group := [{ category := "18-29", respondent_count := 1, support_rate := some 2 }],
                  education := [{ category := "BA", respondent_count := 1, support_rate := some 2 }],
                  income := [{ category := "low", respondent_count := 1, support_rate := some 2 }] } := by
  simp +decide [transform_data, seriesMean, groupStats, groupKeys, groupRows,
    groupCells, groupCount, groupRate, recTwo, Cell.toNum?,
    Cell.isStr, List.insertionSort, List.orderedInsert, List.dedup, List.countP_cons,
    List.countP_nil, List.filter_cons, Function.comp]

/-- C6 (amended): a record whose outcome is a non-numeric string makes
`transform_data` fail with pandas' `TypeError` — an error that carries
no record index; numeric outcome values outside `{0, 1}` are accepted
without any error. -/
theorem transform_data_string_outcome_type_error (df : List RawRecord)
    (h : ∃ r ∈ df, r.policy_support.isStr = true) :
    transform_data df = Except.error PipelineError.typeError := by
  obtain ⟨r, hr, hstr⟩ := h
  have hany : (df.map RawRecord.policy_support).any Cell.isStr = true := by
    simp only [List.any_eq_true]
    exact ⟨r.policy_support, List.mem_map_of_mem _ hr, hstr⟩
  simp [transform_data, seriesMean, hany]

/-- Witness for the C6 amended theorem at a concrete dataset. -/
theorem transform_data_string_outcome_type_error_witness :
    transform_data [{ recM with policy_support := .str "yes" }] =
      Except.error PipelineError.typeError :=
  transform_data_string_outcome_type_error _
    ⟨{ recM with policy_support := .str "yes" }, by simp, rfl⟩

/-! ## C8: extraction with zero source files -/

/-- C8: when the raw directory holds zero CSV files, `extract_data`
raises `FileNotFoundError` (the code's spelling of `NoSourceDataError`),
the run aborts with that error before the transform stage, and no file
is written. -/
theorem extract_no_sources_aborts (env : Env) (now : Timestamp)
    (h : env.csvFiles = []) :
    extract_data env = Except.error PipelineError.fileNotFound ∧
      pipeline env now = (Except.error PipelineError.fileNotFound, []) := by
  have h1 : extract_data env = Except.error PipelineError.fileNotFound := by
    simp [extract_data, h]
  exact ⟨h1, by simp [pipeline, h1]⟩

/-- Witness for C8 at a concrete empty environment. -/
theorem extract_no_sources_aborts_witness :
    extract_data ⟨[], true, true⟩ = Except.error PipelineError.fileNotFound ∧
      pipeline ⟨[], true, true⟩ ⟨2026, 1, 1, 0, 0, 0, 1⟩ =
        (Except.error PipelineError.fileNotFound, []) :=
  extract_no_sources_aborts _ _ rfl

/-! ## C1: partition counts -/

/-- A list's length splits into the matching and non-matching counts of
any Boolean predicate. -/
lemma countP_add_countP_not {α : Type} (p : α → Bool) (l : List α) :
    l.countP p + l.countP (fun a => !p a) = l.length := by
  induction l with
  | nil => simp
  | cons a l ih =>
    cases h : p a <;> simp [List.countP_cons, h, ← ih] <;> omega

/-- Summing, over a duplicate-free list of keys that covers every
record's key, the number of records mapped to each key recovers the
number of records. -/
lemma sum_countP_partition {α : Type} (f : α → Option String) :
    ∀ (keys : List String), keys.Nodup →
      ∀ l : List α, (∀ a ∈ l, ∃ k, f a = some k ∧ k ∈ keys) →
      (keys.map (fun k => l.countP (fun a => f a = some k))).sum = l.length := by
  intro keys
  induction keys with
  | nil =>
    intro _ l hmem
    cases l with
    | nil => simp
    | cons a l =>
      obtain ⟨k, _, hk⟩ := hmem a (List.mem_cons_self a l)
      exact absurd hk (List.not_mem_nil k)
  | cons k ks ih =>
    intro hnd l hmem
    have hknotin : k ∉ ks := (List.nodup_cons.mp hnd).1
    set l' := l.filter (fun a => !decide (f a = some k)) with hl'
    have htail : ∀ k' ∈ ks,
        l.countP (fun a => f a = some k') = l'.countP (fun a => f a = some k') := by
      intro k' hk'
      rw [hl', List.countP_filter]
      refine (List.countP_congr ?_).symm
      intro a _
      by_cases hfa : f a = some k'
      · have hkne : ¬(k' = k) := fun hek => hknotin (hek ▸ hk')
        simp [hfa, hkne]
      · simp [hfa]
    have hmaps : (ks.map (fun k' => l.countP (fun a => f a = some k'))).sum =
        (ks.map (fun k' => l'.countP (fun a => f a = some k'))).sum := by
      congr 1
      exact List.map_congr_left htail
    have hmem' : ∀ a ∈ l', ∃ k0, f a = some k0 ∧ k0 ∈ ks := by
      intro a ha
      have hal : a ∈ l := List.mem_of_mem_filter ha
      have hne : ¬(f a = some k) := by
        have := List.of_mem_filter ha
        simpa using this
      obtain ⟨k0, hf0, hk0⟩ := hmem a hal
      refine ⟨k0, hf0, ?_⟩
      rcases List.mem_cons.mp hk0 with h | h
      · exact absurd (h ▸ hf0) hne
      · exact h
    have hrec := ih (List.nodup_cons.mp hnd).2 l' hmem'
    have hlen : l'.length = l.countP (fun a => !decide (f a = some k)) := by
      rw [hl', List.countP_eq_length_filter]
    calc ((k :: ks).map (fun k' => l.countP (fun a => f a = some k'))).sum
        = l.countP (fun a => f a = some k) +
            (ks.map (fun k' => l.countP (fun a => f a = some k'))).sum := by
          simp
      _ = l.countP (fun a => f a = some k) + l'.length := by
          rw [hmaps, hrec]
      _ = l.length := by
          rw [hlen]
          exact countP_add_countP_not _ l

/-- The keys of a breakdown are exactly the attribute values observed in
the dataset. -/
lemma mem_groupKeys {attr : RawRecord → Option String}
    {df : List RawRecord} {k : String} :
    k ∈ groupKeys attr df ↔ ∃ r ∈ df, attr r = some k := by
  rw [groupKeys, List.mem_insertionSort, List.mem_dedup, List.mem_filterMap]

/-- The group keys carry no duplicates. -/
lemma groupKeys_nodup (attr : RawRecord → Option String)
    (df : List RawRecord) : (groupKeys attr df).Nodup :=
  ((List.perm_insertionSort _ _).nodup_iff).mpr (List.nodup_dedup _)

/-- When every record carries a numeric outcome, a group's `count` is
the number of records of the partition. -/
lemma groupCount_eq_countP (attr : RawRecord → Option String) (k : String)
    (df : List RawRecord)
    (hnum : ∀ r ∈ df, ∃ q, r.policy_support = Cell.num q) :
    groupCount attr k df = df.countP (fun r => attr r = some k) := by
  unfold groupCount groupCells groupRows
  rw [List.countP_map]
  rw [List.countP_eq_length.mpr ?_, ← List.countP_eq_length_filter]
  intro r hr
  obtain ⟨q, hq⟩ := hnum r (List.mem_of_mem_filter hr)
  simp [Function.comp, hq]

/-- When every record carries a numeric outcome and a present value for
the attribute, the breakdown's respondent counts sum to the dataset
size. -/
lemma groupStats_counts_sum (attr : RawRecord → Option String)
    (df : List RawRecord)
    (hnum : ∀ r ∈ df, ∃ q, r.policy_support = Cell.num q)
    (hattr : ∀ r ∈ df, attr r ≠ none) :
    ((groupStats attr df).map GroupStat.respondent_count).sum = df.length := by
  unfold groupStats
  rw [List.map_map]
  have hfun : ∀ k ∈ groupKeys attr df,
      (GroupStat.respondent_count ∘ fun k =>
        GroupStat.mk k (groupCount attr k df) (groupRate attr k df)) k
        = df.countP (fun r => attr r = some k) := by
    intro k _
    exact groupCount_eq_countP attr k df hnum
  rw [List.map_congr_left hfun]
  apply sum_countP_partition attr (groupKeys attr df) (groupKeys_nodup attr df)
  intro r hr
  obtain ⟨k, hk⟩ := Option.ne_none_iff_exists'.mp (hattr r hr)
  exact ⟨k, hk, mem_groupKeys.mpr ⟨r, hr, hk⟩⟩

/-- Inversion of a successful transform: the summary's five breakdown
fields are the five groupings of the input dataset. -/
lemma transform_data_ok_fields {df : List RawRecord} {s : Summary}
    (hok : transform_data df = Except.ok s) :
    s.gender = groupStats RawRecord.gender df ∧
    s.race = groupStats RawRecord.race df ∧
    s.age_group = groupStats RawRecord.age_group df ∧
    s.education = groupStats RawRecord.education df ∧
    s.income = groupStats RawRecord.income df := by
  unfold transform_data at hok
  cases hsm : seriesMean (df.map RawRecord.policy_support) with
  | error e => rw [hsm] at hok; cases hok
  | ok overall =>
    rw [hsm] at hok
    injection hok with h
    subst h
    exact ⟨rfl, rfl, rfl, rfl, rfl⟩

/-- Inversion of a successful transform: the summary's overall rate is
exactly what the column mean returned. -/
lemma transform_data_ok_overall {df : List RawRecord} {s : Summary}
    (hok : transform_data df = Except.ok s) :
    seriesMean (df.map RawRecord.policy_support) =
      Except.ok s.overall_support_rate := by
  unfold transform_data at hok
  cases hsm : seriesMean (df.map RawRecord.policy_support) with
  | error e => rw [hsm] at hok; cases hok
  | ok overall =>
    rw [hsm] at hok
    injection hok with h
    subst h
    rfl

/-- C1 (counterexample): on the one-record dataset whose `gender` is
missing (NaN), the transform stage succeeds but its gender breakdown
drops the record entirely: the respondent counts sum to `0`, not to the
dataset size `1`.  Missing demographic values do not form a category of
their own — pandas `groupby` excludes them. -/
theorem transform_data_missing_gender_excluded :
    ∃ s, transform_data [recNoGender] = Except.ok s ∧
      (s.gender.map GroupStat.respondent_count).sum = 0 ∧
      [recNoGender].length = 1 := by
  refine ⟨_, rfl, ?_, rfl⟩
  simp +decide [groupStats, groupKeys, groupRows, groupCells, groupCount,
    groupRate, recNoGender, List.insertionSort, List.orderedInsert, List.dedup]

/-- C1 (amended): for a dataset whose records all carry a numeric
outcome, and for each demographic attribute such that no record's value
of that attribute is missing, the transform stage partitions the records
by exact equality of the attribute and the respondent counts of the
returned category triples sum to the dataset size `N`.  (Records with a
missing value for the attribute are excluded from that attribute's
breakdown, so the hypothesis on that attribute is needed.) -/
theorem transform_counts_sum_when_attrs_present (df : List RawRecord)
    (s : Summary)
    (hnum : ∀ r ∈ df, ∃ q, r.policy_support = Cell.num q)
    (hok : transform_data df = Except.ok s) :
    ((∀ r ∈ df, r.gender ≠ none) →
      (s.gender.map GroupStat.respondent_count).sum = df.length) ∧
    ((∀ r ∈ df, r.race ≠ none) →
      (s.race.map GroupStat.respondent_count).sum = df.length) ∧
    ((∀ r ∈ df, r.age_group ≠ none) →
      (s.age_group.map GroupStat.respondent_count).sum = df.length) ∧
    ((∀ r ∈ df, r.education ≠ none) →
      (s.education.map GroupStat.respondent_count).sum = df.length) ∧
    ((∀ r ∈ df, r.income ≠ none) →
      (s.income.map GroupStat.respondent_count).sum = df.length) := by
  obtain ⟨hg, hr, ha, he, hi⟩ := transform_data_ok_fields hok
  exact ⟨fun h => hg ▸ groupStats_counts_sum _ df hnum h,
         fun h => hr ▸ groupStats_counts_sum _ df hnum h,
         fun h => ha ▸ groupStats_counts_sum _ df hnum h,
         fun h => he ▸ groupStats_counts_sum _ df hnum h,
         fun h => hi ▸ groupStats_counts_sum _ df hnum h⟩

/-- The summary the transform stage computes for `[recM, recF]`. -/
def twoRecSummary : Summary :=
  { overall_support_rate := some (1 / 2),
    gender := [{ category := "F", respondent_count := 1, support_rate := some 0 },
               { category := "M", respondent_count := 1, support_rate := some 1 }],
    race := [{ category := "W", respondent_count := 2, support_rate := some (1 / 2) }],
    age_group := [{ category := "18-29", respondent_count := 2, support_rate := some (1 / 2) }],
    education := [{ category := "BA", respondent_count := 2, support_rate := some (1 / 2) }],
    income := [{ category := "low", respondent_count := 2, support_rate := some (1 / 2) }] }

/-- Evaluation of the transform stage on `[recM, recF]`. -/
lemma transform_data_two_rec_eval :
    transform_data [recM, recF] = Except.ok twoRecSummary := by
  simp +decide [transform_data, seriesMean, groupStats, groupKeys, groupRows,
    groupCells, groupCount, groupRate, recM, recF, twoRecSummary, Cell.toNum?,
    Cell.isStr, List.insertionSort, List.orderedInsert, List.dedup,
    List.countP_cons, List.countP_nil, List.filter_cons, Function.comp]

/-- Witness for the C1 amended theorem at the two-record dataset. -/
theorem transform_counts_sum_when_attrs_present_witness :
    (twoRecSummary.gender.map GroupStat.respondent_count).sum =
      [recM, recF].length :=
  (transform_counts_sum_when_attrs_present [recM, recF] twoRecSummary
    (by rintro r hr
        rcases List.mem_cons.mp hr with h | h
        · exact ⟨1, by rw [h]; rfl⟩
        · rcases List.mem_cons.mp h with h' | h'
          · exact ⟨0, by rw [h']; rfl⟩
          · exact absurd h' (List.not_mem_nil r))
    transform_data_two_rec_eval).1 (by decide)

/-! ## C2: exact means and their bounds -/

/-- The five demographic attributes paired with the summary field that
holds their breakdown, in source order. -/
def attrFields : List ((RawRecord → Option String) × (Summary → List GroupStat)) :=
  [(RawRecord.gender, Summary.gender), (RawRecord.race, Summary.race),
   (RawRecord.age_group, Summary.age_group),
   (RawRecord.education, Summary.education),
   (RawRecord.income, Summary.income)]

/-- Mapping a partial function that succeeds on every element keeps the
length. -/
lemma length_filterMap_of_all_some {α β : Type} (f : α → Option β)
    (l : List α) (h : ∀ a ∈ l, ∃ b, f a = some b) :
    (l.filterMap f).length = l.length := by
  induction l with
  | nil => simp
  | cons a l ih =>
    obtain ⟨b, hb⟩ := h a (List.mem_cons_self a l)
    rw [List.filterMap_cons, hb]
    simp [ih (fun x hx => h x (List.mem_cons_of_mem a hx))]

/-- On a non-empty column of `{0, 1}` cells, the numeric values are all
present, their count is the column length, and their mean lies in
`[0, 1]`. -/
lemma mean_formula_of_01 (cells : List Cell) (hne : cells ≠ [])
    (h01 : ∀ c ∈ cells, c = Cell.num 0 ∨ c = Cell.num 1) :
    (cells.filterMap Cell.toNum?).isEmpty = false ∧
    (cells.filterMap Cell.toNum?).length = cells.length ∧
    0 ≤ (cells.filterMap Cell.toNum?).sum /
        ((cells.filterMap Cell.toNum?).length : ℚ) ∧
    (cells.filterMap Cell.toNum?).sum /
        ((cells.filterMap Cell.toNum?).length : ℚ) ≤ 1 := by
  have hall : ∀ c ∈ cells, ∃ q, Cell.toNum? c = some q := by
    intro c hc
    rcases h01 c hc with h | h <;> exact ⟨_, by rw [h]; rfl⟩
  have hlen : (cells.filterMap Cell.toNum?).length = cells.length :=
    length_filterMap_of_all_some _ _ hall
  have hnene : cells.filterMap Cell.toNum? ≠ [] := by
    intro h
    apply hne
    have hc := congrArg List.length h
    rw [hlen] at hc
    simpa using hc
  have hvals : ∀ q ∈ cells.filterMap Cell.toNum?, 0 ≤ q ∧ q ≤ 1 := by
    intro q hq
    obtain ⟨c, hc, hq'⟩ := List.mem_filterMap.mp hq
    rcases h01 c hc with h | h <;> rw [h] at hq' <;>
      · injection hq' with h''
        subst h''
        norm_num
  have hpos : (0 : ℚ) < ((cells.filterMap Cell.toNum?).length : ℚ) := by
    have := List.length_pos.mpr hnene
    exact_mod_cast this
  refine ⟨by simp [List.isEmpty_iff, hnene], hlen, ?_, ?_⟩
  · exact div_nonneg (List.sum_nonneg fun x hx => (hvals x hx).1) hpos.le
  · rw [div_le_one hpos]
    have := List.sum_le_card_nsmul (cells.filterMap Cell.toNum?) 1
      (fun x hx => (hvals x hx).2)
    simpa [nsmul_eq_mul] using this

/-- A `{0, 1}` column holds no string cell. -/
lemma no_str_of_01 (cells : List Cell)
    (h01 : ∀ c ∈ cells, c = Cell.num 0 ∨ c = Cell.num 1) :
    cells.any Cell.isStr = false := by
  rw [List.any_eq_false]
  intro c hc
  rcases h01 c hc with h | h <;> simp [h, Cell.isStr]

/-- A member of a breakdown, on a `{0, 1}` dataset: its rate is exactly
the arithmetic mean of the outcome over the partition's records, and
lies in `[0, 1]`. -/
lemma breakdown_rate_mean_bounds (attr : RawRecord → Option String)
    (df : List RawRecord)
    (h01 : ∀ r ∈ df, r.policy_support = Cell.num 0 ∨ r.policy_support = Cell.num 1)
    (g : GroupStat) (hg : g ∈ groupStats attr df) :
    g.support_rate = some
      ((((df.filter (fun r => attr r = some g.category)).map
          RawRecord.policy_support).filterMap Cell.toNum?).sum /
        (((df.filter (fun r => attr r = some g.category)).length : ℚ))) ∧
    (∀ q, g.support_rate = some q → 0 ≤ q ∧ q ≤ 1) := by
  obtain ⟨k, hk, hgk⟩ := List.mem_map.mp hg
  subst hgk
  have hocc : ∃ r ∈ df, attr r = some k := mem_groupKeys.mp hk
  have hcells_ne : groupCells attr k df ≠ [] := by
    obtain ⟨r, hr, hattr⟩ := hocc
    have hrow : r ∈ groupRows attr k df :=
      List.mem_filter.mpr ⟨hr, by simp [hattr]⟩
    intro hnil
    have : RawRecord.policy_support r ∈ groupCells attr k df :=
      List.mem_map_of_mem _ hrow
    rw [hnil] at this
    exact absurd this (List.not_mem_nil _)
  have h01c : ∀ c ∈ groupCells attr k df,
      c = Cell.num 0 ∨ c = Cell.num 1 := by
    intro c hc
    obtain ⟨r, hr, hrc⟩ := List.mem_map.mp hc
    exact hrc ▸ h01 r (List.mem_of_mem_filter hr)
  obtain ⟨hemp, hlen, h0, h1⟩ := mean_formula_of_01 _ hcells_ne h01c
  have hrate : groupRate attr k df = some
      (((groupCells attr k df).filterMap Cell.toNum?).sum /
        (((groupCells attr k df).filterMap Cell.toNum?).length : ℚ)) := by
    unfold groupRate
    simp only [hemp, Bool.false_eq_true, if_false]
  have hlen2 : (groupCells attr k df).length =
      (df.filter (fun r => attr r = some k)).length := by
    unfold groupCells groupRows
    rw [List.length_map]
  constructor
  · show groupRate attr k df = _
    rw [hrate, hlen, hlen2]
    rfl
  · intro q hq
    rw [show (GroupStat.mk k (groupCount attr k df)
        (groupRate attr k df)).support_rate = groupRate attr k df from rfl,
      hrate] at hq
    injection hq with hq'
    subst hq'
    exact ⟨h0, h1⟩

/-- C2: on a non-empty dataset whose outcome cells all lie in `{0, 1}`,
the transform stage succeeds; its overall rate is exactly the arithmetic
mean of the outcome over all `N` records and lies in `[0, 1]`; and in
each of the five demographic breakdowns, each category's rate is exactly
the arithmetic mean of the outcome over that partition's records and
lies in `[0, 1]`. -/
theorem transform_means_exact_and_bounded (df : List RawRecord)
    (hne : df ≠ [])
    (h01 : ∀ r ∈ df, r.policy_support = Cell.num 0 ∨ r.policy_support = Cell.num 1) :
    ∃ s, transform_data df = Except.ok s ∧
      s.overall_support_rate = some
        (((df.map RawRecord.policy_support).filterMap Cell.toNum?).sum /
          (df.length : ℚ)) ∧
      (∀ q, s.overall_support_rate = some q → 0 ≤ q ∧ q ≤ 1) ∧
      (∀ p ∈ attrFields, ∀ g ∈ p.2 s,
        g.support_rate = some
          ((((df.filter (fun r => p.1 r = some g.category)).map
              RawRecord.policy_support).filterMap Cell.toNum?).sum /
            (((df.filter (fun r => p.1 r = some g.category)).length : ℚ))) ∧
        (∀ q, g.support_rate = some q → 0 ≤ q ∧ q ≤ 1)) := by
  have hcne : df.map RawRecord.policy_support ≠ [] := by
    simpa using hne
  have h01c : ∀ c ∈ df.map RawRecord.policy_support,
      c = Cell.num 0 ∨ c = Cell.num 1 := by
    intro c hc
    obtain ⟨r, hr, hrc⟩ := List.mem_map.mp hc
    exact hrc ▸ h01 r hr
  obtain ⟨hemp, hlen, h0, h1⟩ := mean_formula_of_01 _ hcne h01c
  have hstr := no_str_of_01 _ h01c
  have hsm : seriesMean (df.map RawRecord.policy_support) = Except.ok
      (some (((df.map RawRecord.policy_support).filterMap Cell.toNum?).sum /
        (((df.map RawRecord.policy_support).filterMap Cell.toNum?).length : ℚ))) := by
    unfold seriesMean
    rw [hstr]
    simp only [Bool.false_eq_true, if_false, hemp]
  have htd : transform_data df = Except.ok
      { overall_support_rate :=
          some (((df.map RawRecord.policy_support).filterMap Cell.toNum?).sum /
            (((df.map RawRecord.policy_support).filterMap Cell.toNum?).length : ℚ)),
        gender := groupStats RawRecord.gender df,
        race := groupStats RawRecord.race df,
        age_group := groupStats RawRecord.age_group df,
        education := groupStats RawRecord.education df,
        income := groupStats RawRecord.income df } := by
    unfold transform_data
    rw [hsm]
  refine ⟨_, htd, ?_, ?_, ?_⟩
  · show some _ = some _
    rw [hlen, List.length_map]
  · intro q hq
    injection hq with hq'
    subst hq'
    exact ⟨h0, h1⟩
  · intro p hp g hg
    fin_cases hp <;>
      exact breakdown_rate_mean_bounds _ df h01 g hg

/-- Witness for C2 at the two-record dataset. -/
theorem transform_means_exact_and_bounded_witness :
    ∃ s, transform_data [recM, recF] = Except.ok s ∧
      s.overall_support_rate = some
        ((([recM, recF].map RawRecord.policy_support).filterMap Cell.toNum?).sum /
          (([recM, recF].length : ℚ))) ∧
      (∀ q, s.overall_support_rate = some q → 0 ≤ q ∧ q ≤ 1) ∧
      (∀ p ∈ attrFields, ∀ g ∈ p.2 s,
        g.support_rate = some
          (((([recM, recF].filter (fun r => p.1 r = some g.category)).map
              RawRecord.policy_support).filterMap Cell.toNum?).sum /
            ((([recM, recF].filter (fun r => p.1 r = some g.category)).length : ℚ))) ∧
        (∀ q, g.support_rate = some q → 0 ≤ q ∧ q ≤ 1)) :=
  transform_means_exact_and_bounded [recM, recF] (by simp)
    (by rintro r hr
        rcases List.mem_cons.mp hr with h | h
        · exact Or.inr (by rw [h]; rfl)
        · rcases List.mem_cons.mp h with h' | h'
          · exact Or.inl (by rw [h']; rfl)
          · exact absurd h' (List.not_mem_nil r))

/-! ## C4: order-insensitivity of the transform stage -/

/-- Whether any element satisfies a predicate is permutation-invariant. -/
lemma perm_any_eq {α : Type} (p : α → Bool) {l1 l2 : List α}
    (h : l1.Perm l2) : l1.any p = l2.any p := by
  cases ha : l2.any p with
  | true =>
    obtain ⟨x, hx, hpx⟩ := List.any_eq_true.mp ha
    exact List.any_eq_true.mpr ⟨x, h.mem_iff.mpr hx, hpx⟩
  | false =>
    rw [List.any_eq_false] at ha ⊢
    intro x hx
    exact ha x (h.mem_iff.mp hx)

/-- The column mean is permutation-invariant. -/
lemma seriesMean_perm {c1 c2 : List Cell} (h : c1.Perm c2) :
    seriesMean c1 = seriesMean c2 := by
  unfold seriesMean
  rw [perm_any_eq Cell.isStr h]
  have hfm : (c1.filterMap Cell.toNum?).Perm (c2.filterMap Cell.toNum?) :=
    h.filterMap Cell.toNum?
  by_cases hnil : c1.filterMap Cell.toNum? = []
  · have hnil2 : c2.filterMap Cell.toNum? = [] := by
      rw [hnil] at hfm
      exact (hfm.symm).eq_nil
    simp [hnil, hnil2]
  · have hnil2 : c2.filterMap Cell.toNum? ≠ [] := by
      intro hh
      rw [hh] at hfm
      exact hnil hfm.eq_nil
    simp [List.isEmpty_iff, hnil, hnil2, hfm.sum_eq, hfm.length_eq]

/-- The sorted list of group keys is permutation-invariant. -/
lemma groupKeys_perm (attr : RawRecord → Option String)
    {d1 d2 : List RawRecord} (h : d1.Perm d2) :
    groupKeys attr d1 = groupKeys attr d2 := by
  unfold groupKeys
  refine List.eq_of_perm_of_sorted ?_ (List.sorted_insertionSort _ _)
    (List.sorted_insertionSort _ _)
  exact ((List.perm_insertionSort _ _).trans ((h.filterMap attr).dedup)).trans
    (List.perm_insertionSort _ _).symm

/-- The whole breakdown of an attribute is permutation-invariant. -/
lemma groupStats_perm (attr : RawRecord → Option String)
    {d1 d2 : List RawRecord} (h : d1.Perm d2) :
    groupStats attr d1 = groupStats attr d2 := by
  unfold groupStats
  rw [groupKeys_perm attr h]
  apply List.map_congr_left
  intro k _
  have hrows : (groupRows attr k d1).Perm (groupRows attr k d2) := h.filter _
  have hcells : (groupCells attr k d1).Perm (groupCells attr k d2) :=
    hrows.map _
  have hnums : ((groupCells attr k d1).filterMap Cell.toNum?).Perm
      ((groupCells attr k d2).filterMap Cell.toNum?) :=
    hcells.filterMap _
  congr 1
  · exact hcells.countP_eq _
  · unfold groupRate
    by_cases hnil : (groupCells attr k d1).filterMap Cell.toNum? = []
    · have hnil2 : (groupCells attr k d2).filterMap Cell.toNum? = [] := by
        rw [hnil] at hnums
        exact (hnums.symm).eq_nil
      simp [hnil, hnil2]
    · have hnil2 : (groupCells attr k d2).filterMap Cell.toNum? ≠ [] := by
        intro hh
        rw [hh] at hnums
        exact hnil hnums.eq_nil
      simp [List.isEmpty_iff, hnil, hnil2, hnums.sum_eq, hnums.length_eq]

/-- C4: the transform stage is invariant under permutation of the input
records — the permuted dataset yields the very same summary (same
overall rate and, per demographic attribute, the same list of category
triples), or the very same error. -/
theorem transform_data_perm_invariant (d1 d2 : List RawRecord)
    (h : d1.Perm d2) : transform_data d1 = transform_data d2 := by
  unfold transform_data
  rw [seriesMean_perm (h.map RawRecord.policy_support),
    groupStats_perm RawRecord.gender h, groupStats_perm RawRecord.race h,
    groupStats_perm RawRecord.age_group h,
    groupStats_perm RawRecord.education h,
    groupStats_perm RawRecord.income h]

/-- Witness for C4: swapping the two records of the end-to-end scenario
leaves the transform result unchanged. -/
theorem transform_data_perm_invariant_witness :
    transform_data [recM, recF] = transform_data [recF, recM] :=
  transform_data_perm_invariant _ _ (List.Perm.swap recF recM [])

/-! ## C10: breakdowns are sorted by category value -/

/-- The category values of a breakdown are exactly the group keys. -/
lemma groupStats_map_category (attr : RawRecord → Option String)
    (df : List RawRecord) :
    (groupStats attr df).map GroupStat.category = groupKeys attr df := by
  unfold groupStats
  rw [List.map_map]
  exact (List.map_congr_left fun k _ => rfl).trans (List.map_id _)

/-- The group keys are strictly increasing: sorted by `insertionSort`
and duplicate-free by `dedup`. -/
lemma groupKeys_sorted_lt (attr : RawRecord → Option String)
    (df : List RawRecord) :
    List.Sorted (· < ·) (groupKeys attr df) :=
  (List.sorted_insertionSort _ _).lt_of_le (groupKeys_nodup attr df)

/-- C10: in every summary the transform stage returns, each of the five
demographic breakdown lists is sorted in strictly ascending order of its
category value (pandas `groupby(sort=True)`), the order the report
renders. -/
theorem transform_breakdowns_sorted (df : List RawRecord) (s : Summary)
    (hok : transform_data df = Except.ok s) :
    List.Sorted (· < ·) (s.gender.map GroupStat.category) ∧
    List.Sorted (· < ·) (s.race.map GroupStat.category) ∧
    List.Sorted (· < ·) (s.age_group.map GroupStat.category) ∧
    List.Sorted (· < ·) (s.education.map GroupStat.category) ∧
    List.Sorted (· < ·) (s.income.map GroupStat.category) := by
  obtain ⟨hg, hr, ha, he, hi⟩ := transform_data_ok_fields hok
  refine ⟨?_, ?_, ?_, ?_, ?_⟩
  · rw [hg, groupStats_map_category]
    exact groupKeys_sorted_lt _ _
  · rw [hr, groupStats_map_category]
    exact groupKeys_sorted_lt _ _
  · rw [ha, groupStats_map_category]
    exact groupKeys_sorted_lt _ _
  · rw [he, groupStats_map_category]
    exact groupKeys_sorted_lt _ _
  · rw [hi, groupStats_map_category]
    exact groupKeys_sorted_lt _ _

/-- Witness for C10 at the two-record dataset. -/
theorem transform_breakdowns_sorted_witness :
    List.Sorted (· < ·) (twoRecSummary.gender.map GroupStat.category) ∧
    List.Sorted (· < ·) (twoRecSummary.race.map GroupStat.category) ∧
    List.Sorted (· < ·) (twoRecSummary.age_group.map GroupStat.category) ∧
    List.Sorted (· < ·) (twoRecSummary.education.map GroupStat.category) ∧
    List.Sorted (· < ·) (twoRecSummary.income.map GroupStat.category) :=
  transform_breakdowns_sorted [recM, recF] twoRecSummary
    transform_data_two_rec_eval

/-! ## C9: report file names and their collisions -/

/-- A run of zero digits contributes nothing to a decimal value. -/
lemma ofDigits_replicate_zero (k : ℕ) :
    Nat.ofDigits 10 (List.replicate k 0) = 0 := by
  induction k with
  | zero => simp
  | succ k ih => simp [List.replicate_succ, Nat.ofDigits_cons, ih]

/-- Zero-padding does not change the decimal value of the digits. -/
lemma ofDigits_padDigits (w n : ℕ) : Nat.ofDigits 10 (padDigits w n) = n := by
  unfold padDigits
  rw [Nat.ofDigits_append, Nat.ofDigits_digits, ofDigits_replicate_zero]
  ring

/-- Every entry of a zero-padded digit list is a digit. -/
lemma padDigits_lt_base (w n : ℕ) : ∀ d ∈ padDigits w n, d < 10 := by
  intro d hd
  rcases List.mem_append.mp hd with h | h
  · exact Nat.digits_lt_base (by norm_num) h
  · rw [List.eq_of_mem_replicate h]
    norm_num

/-- The number a zero-padded block of digit characters denotes. -/
def decodeBlock (cs : List Char) : ℕ :=
  Nat.ofDigits 10 ((cs.map (fun c => c.toNat - 48)).reverse)

/-- Decoding a digit character recovers the digit. -/
lemma toNat_digitChar (d : ℕ) (h : d < 10) : (digitChar d).toNat - 48 = d := by
  unfold digitChar
  interval_cases d <;> decide

/-- Decoding a zero-padded block recovers the number it prints. -/
lemma decodeBlock_padNum (w n : ℕ) : decodeBlock (padNum w n) = n := by
  unfold decodeBlock padNum
  rw [List.map_map]
  have hmap : (padDigits w n).reverse.map
      ((fun c : Char => c.toNat - 48) ∘ digitChar) = (padDigits w n).reverse := by
    refine (List.map_congr_left ?_).trans (List.map_id _)
    intro d hd
    exact toNat_digitChar d (padDigits_lt_base w n d (List.mem_reverse.mp hd))
  rw [hmap, List.reverse_reverse, ofDigits_padDigits]

/-- The printed block has exactly the requested width when the number
fits. -/
lemma length_padNum_of_le (w n : ℕ) (h : (Nat.digits 10 n).length ≤ w) :
    (padNum w n).length = w := by
  unfold padNum padDigits
  rw [List.length_map, List.length_reverse, List.length_append,
    List.length_replicate]
  omega

/-- Numbers up to two decimal digits. -/
lemma digits_len_le_two (n : ℕ) (h : n ≤ 99) :
    (Nat.digits 10 n).length ≤ 2 := by
  have hle := Nat.le_digits_len_le 10 n 99 h
  have h99 : (Nat.digits 10 99).length = 2 := by norm_num
  omega

/-- Numbers up to four decimal digits. -/
lemma digits_len_le_four (n : ℕ) (h : n ≤ 9999) :
    (Nat.digits 10 n).length ≤ 4 := by
  have hle := Nat.le_digits_len_le 10 n 9999 h
  have h9999 : (Nat.digits 10 9999).length = 4 := by norm_num
  omega

/-- Peeling one fixed-width block off the front of two equal rendered
names forces the printed numbers and the remainders to agree. -/
lemma peel_block {w n1 n2 : ℕ} {r1 r2 : List Char}
    (hlen1 : (Nat.digits 10 n1).length ≤ w)
    (hlen2 : (Nat.digits 10 n2).length ≤ w)
    (h : padNum w n1 ++ r1 = padNum w n2 ++ r2) : n1 = n2 ∧ r1 = r2 := by
  obtain ⟨hb, hr⟩ := List.append_inj h
    (by rw [length_padNum_of_le w n1 hlen1, length_padNum_of_le w n2 hlen2])
  refine ⟨?_, hr⟩
  rw [← decodeBlock_padNum w n1, hb, decodeBlock_padNum]

/-- Two equal `strftime` strings with in-range components came from the
same second-resolution instant. -/
lemma strftimeTs_inj {t1 t2 : Timestamp}
    (h1 : t1.year ≤ 9999 ∧ t1.month ≤ 99 ∧ t1.day ≤ 99 ∧
      t1.hour ≤ 99 ∧ t1.minute ≤ 99 ∧ t1.second ≤ 99)
    (h2 : t2.year ≤ 9999 ∧ t2.month ≤ 99 ∧ t2.day ≤ 99 ∧
      t2.hour ≤ 99 ∧ t2.minute ≤ 99 ∧ t2.second ≤ 99)
    (h : strftimeTs t1 = strftimeTs t2) :
    t1.year = t2.year ∧ t1.month = t2.month ∧ t1.day = t2.day ∧
    t1.hour = t2.hour ∧ t1.minute = t2.minute ∧ t1.second = t2.second := by
  obtain ⟨hy1, hmo1, hd1, hh1, hmi1, hs1⟩ := h1
  obtain ⟨hy2, hmo2, hd2, hh2, hmi2, hs2⟩ := h2
  unfold strftimeTs at h
  obtain ⟨hy, h⟩ := peel_block (digits_len_le_four _ hy1)
    (digits_len_le_four _ hy2) h
  injection h with _ h
  obtain ⟨hmo, h⟩ := peel_block (digits_len_le_two _ hmo1)
    (digits_len_le_two _ hmo2) h
  injection h with _ h
  obtain ⟨hd, h⟩ := peel_block (digits_len_le_two _ hd1)
    (digits_len_le_two _ hd2) h
  injection h with _ h
  obtain ⟨hh, h⟩ := peel_block (digits_len_le_two _ hh1)
    (digits_len_le_two _ hh2) h
  injection h with _ h
  obtain ⟨hmi, h⟩ := peel_block (digits_len_le_two _ hmi1)
    (digits_len_le_two _ hmi2) h
  injection h with _ h
  have hs : t1.second = t2.second := by
    rw [← decodeBlock_padNum 2 t1.second, h, decodeBlock_padNum]
  exact ⟨hy, hmo, hd, hh, hmi, hs⟩

/-- Equal report file names have equal `strftime` parts. -/
lemma reportFileNameData_inj {t1 t2 : Timestamp}
    (h : reportFileNameData t1 = reportFileNameData t2) :
    strftimeTs t1 = strftimeTs t2 := by
  unfold reportFileNameData at h
  exact List.append_cancel_left (List.append_cancel_right h)

/-- C9 (counterexample): two distinct run instants that fall in the same
wall-clock second — here they differ in the microsecond part — are given
the very same report file name, so the later run's `open(..., "w")`
overwrites the earlier artifact rather than creating a distinct one. -/
theorem reportFileName_collision_same_second :
    (⟨2026, 10, 12, 3, 4, 5, 0⟩ : Timestamp) ≠
      ⟨2026, 10, 12, 3, 4, 5, 999999⟩ ∧
    reportFileName ⟨2026, 10, 12, 3, 4, 5, 0⟩ =
      reportFileName ⟨2026, 10, 12, 3, 4, 5, 999999⟩ :=
  ⟨by decide, rfl⟩

/-- C9 (amended): the chosen name embeds the generation timestamp as
`report_<YYYY-MM-DD_HH-MM-SS>.txt`, and any two runs whose timestamps
differ at one-second resolution (with calendar components in their
printable ranges) get distinct names; runs that share the same
wall-clock second get the same name and the later one overwrites the
earlier artifact. -/
theorem reportFileName_distinct_of_distinct_second (t1 t2 : Timestamp)
    (hb1 : t1.year ≤ 9999 ∧ t1.month ≤ 99 ∧ t1.day ≤ 99 ∧
      t1.hour ≤ 99 ∧ t1.minute ≤ 99 ∧ t1.second ≤ 99)
    (hb2 : t2.year ≤ 9999 ∧ t2.month ≤ 99 ∧ t2.day ≤ 99 ∧
      t2.hour ≤ 99 ∧ t2.minute ≤ 99 ∧ t2.second ≤ 99)
    (hne : ¬(t1.year = t2.year ∧ t1.month = t2.month ∧ t1.day = t2.day ∧
      t1.hour = t2.hour ∧ t1.minute = t2.minute ∧ t1.second = t2.second)) :
    reportFileName t1 ≠ reportFileName t2 := by
  intro h
  apply hne
  have hdata : reportFileNameData t1 = reportFileNameData t2 := by
    have hd := congrArg String.data h
    simpa [reportFileName] using hd
  exact strftimeTs_inj hb1 hb2 (reportFileNameData_inj hdata)

/-- Witness for the C9 amended theorem: two runs one second apart get
distinct names. -/
theorem reportFileName_distinct_of_distinct_second_witness :
    reportFileName ⟨2026, 10, 12, 3, 4, 5, 0⟩ ≠
      reportFileName ⟨2026, 10, 12, 3, 4, 6, 0⟩ :=
  reportFileName_distinct_of_distinct_second _ _
    (by decide) (by decide) (by decide)

/-! ## C7: what a stage failure does and does not leave behind -/

/-- C7 (counterexample): a run whose extract and transform stages
succeed but whose report write fails still creates (or truncates) the
report path: `open(report_path, "w")` has already touched the file
before `f.write` can raise, so this failed run leaves an artifact at the
report path — empty or partial, and clobbering any prior same-named
artifact — contradicting the claim that a failed run produces or
overwrites no report artifact. -/
theorem pipeline_failed_load_touches_report :
    (pipeline ⟨[[recM, recF]], true, false⟩ ⟨2026, 10, 12, 3, 4, 5, 0⟩).1 =
      Except.error PipelineError.writeError ∧
    (pipeline ⟨[[recM, recF]], true, false⟩ ⟨2026, 10, 12, 3, 4, 5, 0⟩).2 =
      [reportFileName ⟨2026, 10, 12, 3, 4, 5, 0⟩] := by
  have hex : extract_data ⟨[[recM, recF]], true, false⟩ =
      Except.ok [recM, recF] := by
    simp [extract_data]
  constructor <;>
    simp [pipeline, hex, transform_data_two_rec_eval, load_data]

/-- C7 (amended): a failing stage always aborts the remaining stages and
propagates its error to the caller.  A failure of extract, of transform,
or of the `open` call itself leaves no file created or truncated; but
when `open(report_path, "w")` succeeds and the write then fails, the
failed run has already created or truncated the report path. -/
theorem pipeline_stage_failure_propagates (env : Env) (now : Timestamp)
    (e : PipelineError) :
    (extract_data env = .error e → pipeline env now = (.error e, [])) ∧
    (∀ df, extract_data env = .ok df → transform_data df = .error e →
      pipeline env now = (.error e, [])) ∧
    (∀ df s, extract_data env = .ok df → transform_data df = .ok s →
      env.openOk = false →
      pipeline env now = (.error .writeError, [])) ∧
    (∀ df s, extract_data env = .ok df → transform_data df = .ok s →
      env.openOk = true → env.writeOk = false →
      pipeline env now = (.error .writeError, [reportFileName now])) := by
  refine ⟨?_, ?_, ?_, ?_⟩
  · intro h
    simp [pipeline, h]
  · intro df h1 h2
    simp [pipeline, h1, h2]
  · intro df s h1 h2 ho
    simp [pipeline, h1, h2, load_data, ho]
  · intro df s h1 h2 ho hw
    simp [pipeline, h1, h2, load_data, ho, hw]

/-- Witness for the C7 amended theorem: a run whose `open` call fails
aborts with the error and touches no file. -/
theorem pipeline_stage_failure_propagates_witness :
    pipeline ⟨[[recM, recF]], false, false⟩ ⟨2026, 1, 1, 0, 0, 0, 0⟩ =
      (Except.error PipelineError.writeError, []) :=
  (pipeline_stage_failure_propagates ⟨[[recM, recF]], false, false⟩
      ⟨2026, 1, 1, 0, 0, 0, 0⟩ PipelineError.writeError).2.2.1
    [recM, recF] twoRecSummary (by simp [extract_data])
    transform_data_two_rec_eval rfl
